import Mathlib

/-!
Shallow embedding of the watcher/condition/lifecycle engine of
`src/index.ts` (the intro.js tour helper), together with proofs of the
spec's claims about it.

Conventions of the embedding:
* DOM elements are abstracted to the observations the code makes of them
  (resolvability, visibility, attachment, current input value, whether an
  animation is in flight).  Each watcher becomes an explicit state record
  plus step functions for the events that can reach it (interval ticks,
  input events, transition-completion events, timer expiry, invocation of
  the cancellation handle).
* Time is in milliseconds as `Nat`; a pending `setTimeout` is stored as the
  absolute time at which it fires.
* Callback invocations are the observable output: run functions return the
  list of times (or tick indices) at which the callback fired.
-/

namespace SolidTest

/-! ### Condition strings

`src/index.ts` lines 81-82:

  const ConditionText = /^(?<selector>[^:]*):has-text(\((?<wait>[0-9]+)\))?/;
  const ConditionVisible = /^(?<selector>[^:]*):visible?/;

Both regexes are anchored at the start only.  `[^:]*` can never cross a
colon, and is immediately followed by a literal that starts with a colon,
so the selector group is exactly the prefix of the string up to its first
colon (the match fails when the string has no colon).  Nothing anchors the
end, so trailing characters are ignored.  The final `e` of `:visible?` is
optional.  We embed this matching behaviour directly on `List Char`.
-/

/-- Split a character list at the first colon: returns the prefix before the
first `':'` and the remainder starting at that `':'` (the remainder is `[]`
when no colon occurs).  This is what `^(?<selector>[^:]*)` followed by a
literal colon captures. -/
def takeUntilColon : List Char → List Char × List Char
  | [] => ([], [])
  | c :: cs =>
    if c = ':' then ([], c :: cs)
    else
      let p := takeUntilColon cs
      (c :: p.1, p.2)

/-- Longest prefix of decimal digits, with the rest; embeds `[0-9]+` (the
"at least one" part is checked by the caller). -/
def takeDigits : List Char → List Char × List Char
  | [] => ([], [])
  | c :: cs =>
    if c.isDigit then
      let p := takeDigits cs
      (c :: p.1, p.2)
    else ([], c :: cs)

/-- Numeric value of a digit string, as `parseInt(..., 10)` computes it on
the digits captured by `(?<wait>[0-9]+)`. -/
def digitsToNat (ds : List Char) : Nat :=
  ds.foldl (fun n c => n * 10 + (c.toNat - 48)) 0

/-- The optional group `(\((?<wait>[0-9]+)\))?` of `ConditionText`: matches
an opening parenthesis, one or more digits and a closing parenthesis; when
it does not match, the `wait` capture is absent (`none`), which the caller
turns into `parseInt(undefined) = NaN`. -/
def parseWait (cs : List Char) : Option Nat :=
  match cs with
  | '(' :: rest =>
    let p := takeDigits rest
    match p.1, p.2 with
    | [], _ => none
    | _, ')' :: _ => some (digitsToNat p.1)
    | _, _ => none
  | _ => none

/-- The literal `:has-text` that must follow the selector in `ConditionText`. -/
def hasTextLit : List Char := ":has-text".data

/-- The literal `:visibl` that must follow the selector in `ConditionVisible`;
the regex's final `e?` is optional, so only this prefix is required. -/
def visibleLit : List Char := ":visibl".data

/-- `ConditionText.exec`: selector = prefix before the first colon, then the
literal `:has-text`, then the optional `(digits)` group.  Returns the
selector and the optional `wait` capture. -/
def execConditionText (cs : List Char) : Option (List Char × Option Nat) :=
  let p := takeUntilColon cs
  if hasTextLit.isPrefixOf p.2 then
    some (p.1, parseWait (p.2.drop hasTextLit.length))
  else none

/-- `ConditionVisible.exec`: selector = prefix before the first colon, then
the literal `:visibl` (with optional trailing `e`).  Returns the selector. -/
def execConditionVisible (cs : List Char) : Option (List Char) :=
  let p := takeUntilColon cs
  if visibleLit.isPrefixOf p.2 then some p.1 else none

/-- The watcher installed by `subscribeToConditions`: either
`waitForText(selector, parseInt(wait), cb)` — `wait = none` models the
absent capture, i.e. `parseInt(undefined) = NaN` — or
`waitForElement(selector, 0, cb)`. -/
inductive ConditionWatcher where
  | text (selector : List Char) (wait : Option Nat)
  | visibleWait (selector : List Char) (delay : Nat)
deriving DecidableEq, Repr

/-- The step descriptor fields the engine reads (`AdvancedStep` in the
source); hints are irrelevant to the claims and omitted. -/
structure AdvancedStep where
  element : Option String := none
  hideNext : Bool := false
  hidePrev : Bool := false
  condition : Option String := none
deriving DecidableEq, Repr

/-- `subscribeToConditions(nextStep, callback)` (lines 84-102): guard
`!nextStep?.condition` returns `undefined` when the next step is missing,
its condition is absent, or the condition is the empty string (falsy);
then `ConditionText` is tried, then `ConditionVisible`; no match installs
nothing.  We return the watcher that would be installed. -/
def subscribeToConditions (nextStep : Option AdvancedStep) : Option ConditionWatcher :=
  match nextStep with
  | none => none
  | some st =>
    match st.condition with
    | none => none
    | some c =>
      if c = "" then none
      else
        match execConditionText c.data with
        | some m => some (.text m.1 m.2)
        | none =>
          match execConditionVisible c.data with
          | some sel => some (.visibleWait sel 0)
          | none => none

/-! ### Generation teardown (`clearAll`, lines 25-33)

The lifecycle controller keeps `listeners : ((() => void) | undefined)[]`
and on teardown runs every entry that is defined, then resets the array.
A handle is modelled as a state transform `α → α`; `clearAll` folds the
defined handles over the state in order, skipping `undefined` entries. -/

/-- `clearAll` over the listeners array: each defined handle is invoked in
order, `undefined` entries are skipped (`if (listener) listener();`). -/
def clearAll {α : Type} (listeners : List (Option (α → α))) (s : α) : α :=
  listeners.foldl (fun st h => match h with | none => st | some f => f st) s

/-- Invoking only the defined handles, in order (the behaviour `clearAll`
should be equivalent to). -/
def runDefined {α : Type} (handles : List (α → α)) (s : α) : α :=
  handles.foldl (fun st f => f st) s

/-! ### Transition-completion event name (lines 104-125)

  const transitions = {
      'transition'      : 'transitionend',
      'OTransition'     : 'oTransitionEnd',
      'MozTransition'   : 'transitionend',
      'WebkitTransition': 'webkitTransitionEnd'
  }
  let transitionName = 'transition';
  for (const eventName of Object.keys(transitions)){
      if (element.style[eventName] !== undefined) {
          element.remove();
          transitionName = transitions[eventName];
      }
  }

`Object.keys` yields string keys in insertion order.  The loop has no
`break`: every supported property overwrites `transitionName`, so the
result is determined by the LAST supported property, and when none is
supported the initial value `'transition'` — the property name, not an
event name — is returned.  The browser is abstracted by the predicate
`supported : String → Bool` telling which style properties exist. -/

/-- The probe table, in `Object.keys` (insertion) order. -/
def transitions : List (String × String) :=
  [("transition", "transitionend"),
   ("OTransition", "oTransitionEnd"),
   ("MozTransition", "transitionend"),
   ("WebkitTransition", "webkitTransitionEnd")]

/-- The IIFE computing `transitionEvent`, as a function of which style
properties the browser supports. -/
def transitionEvent (supported : String → Bool) : String :=
  transitions.foldl (fun name kv => if supported kv.1 then kv.2 else name) "transition"

/-- Modelled from the spec's words, for comparison with `transitionEvent`:
"detect which of four vendor-prefixed transition-completion event names is
supported by probing ... in a fixed priority order (unprefixed, then Opera,
then Mozilla, then WebKit variants), defaulting to the unprefixed name if
none is explicitly supported" — i.e. the event name of the FIRST supported
property, with the unprefixed event name `transitionend` as default. -/
def transitionEventSpec (supported : String → Bool) : String :=
  match transitions.find? (fun kv => supported kv.1) with
  | some kv => kv.2
  | none => "transitionend"

/-! ### Text-settle watcher `waitForText` (lines 127-158)

  function waitForText(selector, delay, callback) {
      const element = resolveElement(selector);
      if (!element || element.value) { callback(); return; }
      function cleanup() {
          clearTimeout(currentTimer);
          document.removeEventListener('input', currentListener);
      }
      let currentTimer = null;
      let currentListener = () => {
          clearTimeout(currentTimer);
          if (element.value) {
              currentTimer = setTimeout(() => { cleanup(); callback(); }, delay || 1000);
          }
      }
      element.addEventListener('input', currentListener);
      return () => { cleanup(); };
  }

The crucial DOM fact embedded here: `addEventListener` registers
`currentListener` in the ELEMENT's listener list, while `cleanup` calls
`removeEventListener` on `document`, whose listener list never contained
`currentListener` — a no-op.  The two lists are therefore modelled
separately (`elemListener` / `docListener`). -/

/-- Mutable state of one `waitForText` watcher: whether `currentListener`
is registered on the element, whether it is registered on the document
(it never is; the field exists so that `cleanup`'s `document.removeEventListener`
can act on the list it actually targets), and the pending debounce timer as
its absolute expiry time (`none` = no pending timer). -/
structure TextState where
  elemListener : Bool
  docListener : Bool
  timer : Option Nat
deriving DecidableEq, Repr

/-- `delay || 1000`: the debounce actually used.  `none` models
`NaN` (`parseInt` of the absent `wait` capture) which, like `0`, is falsy. -/
def effDelay : Option Nat → Nat
  | none => 1000
  | some d => if d = 0 then 1000 else d

/-- `waitForText` at install time, given the resolved target as
`Option String` (its current value, `none` = unresolvable).  Returns the
installed watcher state when one is installed (with the listener registered
on the element) and whether the callback fired immediately
(`!element || element.value`). -/
def waitForText (element : Option String) : Option TextState × Bool :=
  match element with
  | none => (none, true)
  | some v =>
    if v ≠ "" then (none, true)
    else (some { elemListener := true, docListener := false, timer := none }, false)

/-- `cleanup`: `clearTimeout(currentTimer)` drops the pending timer;
`document.removeEventListener` removes the listener from the DOCUMENT's
list only — `elemListener` is untouched. -/
def textCleanup (s : TextState) : TextState :=
  { s with timer := none, docListener := false }

/-- `currentListener`, run when an input event at time `t` with current
field value `v` reaches a list the listener is registered in: clear the
pending timer, then if the value is non-empty schedule the debounce timer
for `t + (delay || 1000)`. -/
def textInput (delay : Option Nat) (t : Nat) (v : String) (s : TextState) : TextState :=
  if s.elemListener || s.docListener then
    let s1 := { s with timer := none }
    if v ≠ "" then { s1 with timer := some (t + effDelay delay) } else s1
  else s

/-- Body of the debounce `setTimeout`: `cleanup(); callback();`.  The fire
itself is recorded by the run functions. -/
def textTimerFire (s : TextState) : TextState :=
  textCleanup { s with timer := none }

/-- External events a text watcher can receive: an input event carrying the
field's value at that moment, or an invocation of the cancellation handle. -/
inductive TextEvent where
  | input (value : String)
  | cancel
deriving DecidableEq, Repr

/-- Process one timestamped event: first let a debounce timer that is due
fire (recording its fire time), then dispatch the event. -/
def textStep (delay : Option Nat) (s : TextState) (ev : Nat × TextEvent) :
    TextState × List Nat :=
  let fired :=
    match s.timer with
    | some tf => if tf ≤ ev.1 then (textTimerFire s, [tf]) else (s, ([] : List Nat))
    | none => (s, [])
  match ev.2 with
  | .input v => (textInput delay ev.1 v fired.1, fired.2)
  | .cancel => (textCleanup fired.1, fired.2)

/-- Run a text watcher over a chronological event list; after the last
event any still-pending timer fires.  Returns all callback fire times. -/
def textRun (delay : Option Nat) (s : TextState) : List (Nat × TextEvent) → List Nat
  | [] =>
    match s.timer with
    | some tf => [tf]
    | none => []
  | ev :: rest =>
    let p := textStep delay s ev
    p.2 ++ textRun delay p.1 rest

/-! ### Visibility-wait watcher `waitForElement` (lines 160-209)

  function waitForElement(selector, delay, callback) {
      const resolved = resolveElement(selector);
      const handleElement = (resolved) => {
          const complete = () => {
              if (delay) { setTimeout(callback, delay); } else { callback(); }
          };
          if (isAnimating(resolved)) {
              let listener;
              listener = () => {
                  resolved.removeEventListener(transitionEvent, listener);
                  complete();
              };
              resolved.addEventListener(transitionEvent, listener);
          } else { complete(); }
          return;
      };
      if (resolved && isVisible(resolved)) { handleElement(resolved); return; }
      function cleanup() { clearInterval(currentTimer); }
      let currentTimer = setInterval(() => {
          const resolved = resolveElement(selector);
          if (resolved && isVisible(resolved)) { handleElement(resolved); }
      }, 200);
      return () => { cleanup(); };
  }

Two facts the embedding preserves: the interval callback calls
`handleElement` without ever calling `cleanup`, so the interval keeps
running after a success tick (and every later success tick runs
`handleElement` again — a fresh transition listener each time in the
animating case, hence `transitionListeners` is a count); and when the
target is already visible at install the function returns `undefined`,
i.e. no cancellation handle exists for whatever `handleElement` set up. -/

/-- Mutable state of one `waitForElement` watcher: whether the 200ms
interval is running, how many one-shot transition-completion listeners are
currently attached to the target (each success tick while animating adds a
distinct closure), and the pending `setTimeout(callback, delay)` expiry
times (one per `complete()` when `delay` is truthy). -/
structure ElemState where
  intervalActive : Bool
  transitionListeners : Nat
  pendingTimeouts : List Nat
deriving DecidableEq, Repr

/-- `complete()` at time `t`: with a truthy delay, schedule the callback
after `delay`; otherwise invoke it synchronously (recorded as a fire at
`t`). -/
def elemComplete (delay : Nat) (t : Nat) (s : ElemState) : ElemState × List Nat :=
  if delay ≠ 0 then
    ({ s with pendingTimeouts := s.pendingTimeouts ++ [t + delay] }, [])
  else (s, [t])

/-- `handleElement` at time `t`: if the target is animating, attach a fresh
one-shot transition listener; otherwise run `complete()`. -/
def handleElement (delay : Nat) (t : Nat) (animating : Bool) (s : ElemState) :
    ElemState × List Nat :=
  if animating then
    ({ s with transitionListeners := s.transitionListeners + 1 }, [])
  else elemComplete delay t s

/-- `waitForElement` at install time, with time `t`, given whether the
target is currently resolvable-and-visible and whether it is animating.
Returns the resulting state, any immediate callback fires, and whether a
cancellation handle was returned (`false` in the already-visible branch,
which exits with plain `return;`). -/
def waitForElement (delay : Nat) (t : Nat) (resolvedVisible animating : Bool) :
    ElemState × List Nat × Bool :=
  let s0 : ElemState :=
    { intervalActive := false, transitionListeners := 0, pendingTimeouts := [] }
  if resolvedVisible then
    let p := handleElement delay t animating s0
    (p.1, p.2, false)
  else ({ s0 with intervalActive := true }, [], true)

/-- One 200ms interval tick at time `t`: re-resolve the selector; on a
resolvable-and-visible target run `handleElement` — note the interval is
NOT cleared here. -/
def elemTick (delay : Nat) (t : Nat) (resolvedVisible animating : Bool)
    (s : ElemState) : ElemState × List Nat :=
  if s.intervalActive then
    if resolvedVisible then handleElement delay t animating s else (s, [])
  else (s, [])

/-- The transition-completion event at time `t`: every attached one-shot
listener detaches itself and runs `complete()`. -/
def elemTransitionEnd (delay : Nat) (t : Nat) (s : ElemState) : ElemState × List Nat :=
  let n := s.transitionListeners
  let s1 := { s with transitionListeners := 0 }
  if delay ≠ 0 then
    ({ s1 with pendingTimeouts := s1.pendingTimeouts ++ List.replicate n (t + delay) }, [])
  else (s1, List.replicate n t)

/-- The cancellation handle: `cleanup()` = `clearInterval(currentTimer)`.
Transition listeners and pending timeouts are untouched. -/
def elemCancel (s : ElemState) : ElemState :=
  { s with intervalActive := false }

/-- Run the interval over consecutive ticks: the tick described by the head
of `env` (target resolvable-and-visible?, animating?) happens at time `t`,
the next 200ms later.  Returns all synchronous callback fire times. -/
def elemRunTicks (delay : Nat) (t : Nat) (s : ElemState) :
    List (Bool × Bool) → List Nat
  | [] => []
  | e :: rest =>
    let p := elemTick delay t e.1 e.2 s
    p.2 ++ elemRunTicks delay (t + 200) p.1 rest

/-! ### Element-disappearance monitor `monitorElement` (lines 211-228)

  function monitorElement(selector, callback) {
      const element = resolveElement(selector);
      if (!element) { return; }
      let timer = setInterval(() => {
          if (!element.parentNode || !isVisible(element)) {
              callback();
              clearTimeout(timer);
          }
      }, 200);
      return () => { clearTimeout(timer); };
  }

(`clearTimeout` and `clearInterval` are interchangeable per the HTML
standard, so `clearTimeout(timer)` does stop the interval.) -/

/-- Mutable state of one `monitorElement` watcher: whether its interval is
still running. -/
structure MonitorState where
  active : Bool
deriving DecidableEq, Repr

/-- `monitorElement` at install time: if the anchor is unresolvable,
install nothing and return `undefined` (`none`); otherwise start the
interval. -/
def monitorElement (resolvable : Bool) : Option MonitorState :=
  if resolvable then some { active := true } else none

/-- One 200ms tick, observing whether the element still has a parent node
and whether `isVisible` holds: on detachment or invisibility, fire the
callback and clear the interval.  Returns the new state and whether the
callback fired on this tick. -/
def monitorTick (hasParent visible : Bool) (s : MonitorState) : MonitorState × Bool :=
  if s.active then
    if !hasParent || !visible then ({ active := false }, true)
    else (s, false)
  else (s, false)

/-- The cancellation handle: `clearTimeout(timer)`. -/
def monitorCancel (_ : MonitorState) : MonitorState :=
  { active := false }

/-- Run the monitor over a list of per-tick observations
`(hasParent, visible)`, the head happening at tick index `i`.  Returns the
indices of the ticks at which the callback fired. -/
def monitorRunFrom (s : MonitorState) (i : Nat) : List (Bool × Bool) → List Nat
  | [] => []
  | o :: rest =>
    let p := monitorTick o.1 o.2 s
    (if p.2 then [i] else []) ++ monitorRunFrom p.1 (i + 1) rest

/-- Index of the first tick whose observation satisfies `p` (used to state
at which tick the monitor must fire: the first with the element detached or
invisible). -/
def firstIndexSatisfying (p : α → Bool) : List α → Option Nat
  | [] => none
  | a :: rest =>
    if p a then some 0 else (firstIndexSatisfying p rest).map (· + 1)

/-! ### Helper lemmas -/

/-- A monitor whose interval has been cleared never fires again. -/
theorem monitorRunFrom_inactive (i : Nat) (obs : List (Bool × Bool)) :
    monitorRunFrom { active := false } i obs = [] := by
  induction obs generalizing i with
  | nil => rfl
  | cons o rest ih => simp [monitorRunFrom, monitorTick, ih]

/-- A live monitor fires exactly at the first bad tick (index offset `i`). -/
theorem monitorRunFrom_active (i : Nat) (obs : List (Bool × Bool)) :
    monitorRunFrom { active := true } i obs =
      ((firstIndexSatisfying (fun o => !o.1 || !o.2) obs).map (· + i)).toList := by
  induction obs generalizing i with
  | nil => rfl
  | cons o rest ih =>
    by_cases h : (!o.1 || !o.2) = true
    · simp [monitorRunFrom, monitorTick, firstIndexSatisfying, h, monitorRunFrom_inactive]
    · have step : monitorTick o.1 o.2 { active := true } = ({ active := true }, false) := by
        simp [monitorTick, h]
      have hfir : firstIndexSatisfying (fun o => !o.1 || !o.2) (o :: rest)
          = (firstIndexSatisfying (fun o => !o.1 || !o.2) rest).map (· + 1) := by
        simp [firstIndexSatisfying, h]
      rw [hfir]
      simp only [monitorRunFrom, step]
      rw [ih (i + 1)]
      cases hfi : firstIndexSatisfying (fun o => !o.1 || !o.2) rest
      all_goals simp [hfi]
      all_goals omega

/-- `clearAll` runs exactly the defined handles in order. -/
theorem clearAll_eq_runDefined {α : Type} (l : List (Option (α → α))) (s : α) :
    clearAll l s = runDefined (l.filterMap id) s := by
  induction l generalizing s with
  | nil => rfl
  | cons h rest ih =>
    cases h with
    | none => simpa [clearAll, runDefined, List.foldl] using ih s
    | some f => simpa [clearAll, runDefined, List.foldl] using ih (f s)

/-- Iterating an idempotent map `n ≥ 1` times equals applying it once. -/
theorem iterate_fixed_of_idem {α : Type} (f : α → α) (hf : ∀ s, f (f s) = f s) :
    ∀ n, 1 ≤ n → ∀ s, f^[n] s = f s := by
  intro n
  induction n with
  | zero => intro h; exact absurd h (by omega)
  | succ m ih =>
    intro _ s
    cases Nat.eq_zero_or_pos m with
    | inl h0 => subst h0; simp
    | inr hm => rw [Function.iterate_succ_apply, ih hm (f s), hf]

/-- An interval that is not running produces no tick fires. -/
theorem elemRunTicks_inactive (delay t : Nat) (env : List (Bool × Bool)) (s : ElemState)
    (h : s.intervalActive = false) : elemRunTicks delay t s env = [] := by
  induction env generalizing t with
  | nil => rfl
  | cons e rest ih => simp [elemRunTicks, elemTick, h, ih]

/-! ### Claims -/

/-- C4: condition parsing in `subscribeToConditions`.  The string
`"#box:has-text(250)"` installs a text-settle watcher on `#box` with
debounce capture `250`; `"#modal:visible"` installs a visibility-wait
watcher on `#modal` with zero delay; `"#x:unknown"` installs no watcher
(the patterns, tried text-first, both fail); a missing or empty condition
string silently installs no watcher. -/
theorem subscribeToConditions_parsing :
    subscribeToConditions (some { condition := some "#box:has-text(250)" }) =
      some (.text "#box".data (some 250)) ∧
    subscribeToConditions (some { condition := some "#modal:visible" }) =
      some (.visibleWait "#modal".data 0) ∧
    subscribeToConditions (some { condition := some "#x:unknown" }) = none ∧
    subscribeToConditions (some { condition := none }) = none ∧
    subscribeToConditions (some { condition := some "" }) = none :=
  ⟨rfl, rfl, rfl, rfl, rfl⟩

/-- C10: the condition patterns are start-anchored prefix matches, the
final `e` of `:visible` is optional, and trailing characters are ignored:
`"#x:has-textual"` still installs a text watcher (with the `wait` capture
absent, i.e. the default debounce of 1000ms after `delay || 1000`),
`"#x:visiblAnything"` still installs a visibility watcher, and
`"#box:has-text(250)garbage"` installs a text watcher with debounce 250. -/
theorem subscribeToConditions_prefix_matching :
    subscribeToConditions (some { condition := some "#x:has-textual" }) =
      some (.text "#x".data none) ∧
    subscribeToConditions (some { condition := some "#x:visiblAnything" }) =
      some (.visibleWait "#x".data 0) ∧
    subscribeToConditions (some { condition := some "#box:has-text(250)garbage" }) =
      some (.text "#box".data (some 250)) ∧
    effDelay none = 1000 :=
  ⟨rfl, rfl, rfl, rfl⟩

/-- C9: for the final step (no successor descriptor) and for a successor
without a condition string, `subscribeToConditions` returns `undefined`
(`none`), so the generation's listeners array holds only the disappearance
monitor's handle plus an undefined entry; `clearAll` runs exactly the
defined handles in order — an undefined entry is skipped without being
invoked — and in particular `clearAll [some f, none]` invokes only `f`. -/
theorem subscribeToConditions_absent_skipped :
    subscribeToConditions none = none ∧
    (∀ st : AdvancedStep, st.condition = none → subscribeToConditions (some st) = none) ∧
    (∀ (α : Type) (l : List (Option (α → α))) (s : α),
      clearAll l s = runDefined (l.filterMap id) s) ∧
    (∀ (α : Type) (f : α → α) (s : α), clearAll [some f, none] s = f s) := by
  refine ⟨rfl, ?_, ?_, ?_⟩
  · intro st h
    simp [subscribeToConditions, h]
  · intro α l s
    exact clearAll_eq_runDefined l s
  · intro α f s
    rfl

/-- Witness for C9 at concrete inputs: a step with no condition yields no
watcher, and `clearAll` over a generation `[some f, none]` applies `f`. -/
theorem subscribeToConditions_absent_skipped_witness :
    subscribeToConditions (some { condition := none }) = none ∧
    clearAll [some (fun n : Nat => n + 3), none] 4 = 7 := by
  have h := subscribeToConditions_absent_skipped
  exact ⟨h.2.1 { condition := none } rfl, h.2.2.2 Nat (fun n => n + 3) 4⟩

/-- C5 counterexample: the probe loop has no break, so the LAST supported
style property wins, not the first, and the fallback is the property name
`transition`, not the event name `transitionend`.  With both the unprefixed
and the WebKit properties supported the code yields `webkitTransitionEnd`
while the first-supported reading (`transitionEventSpec`, modelled from the
spec's words) yields `transitionend`; with nothing supported the code
yields `transition`, not the unprefixed event name. -/
theorem transitionEvent_not_first_supported :
    transitionEvent (fun k => k = "transition" || k = "WebkitTransition") =
      "webkitTransitionEnd" ∧
    transitionEventSpec (fun k => k = "transition" || k = "WebkitTransition") =
      "transitionend" ∧
    ("webkitTransitionEnd" : String) ≠ "transitionend" ∧
    transitionEvent (fun _ => false) = "transition" ∧
    ("transition" : String) ≠ "transitionend" := by
  refine ⟨rfl, rfl, by decide, rfl, by decide⟩

/-- C5 (amended): the process-wide transition-completion event name equals
the event name of the LAST supported style property in the fixed order
unprefixed, Opera, Mozilla, WebKit; if none is supported it defaults to the
literal `transition` (the unprefixed property name). -/
theorem transitionEvent_last_supported (supported : String → Bool) :
    transitionEvent supported =
      if supported "WebkitTransition" then "webkitTransitionEnd"
      else if supported "MozTransition" then "transitionend"
      else if supported "OTransition" then "oTransitionEnd"
      else if supported "transition" then "transitionend"
      else "transition" := by
  cases h1 : supported "transition" <;> cases h2 : supported "OTransition" <;>
    cases h3 : supported "MozTransition" <;> cases h4 : supported "WebkitTransition" <;>
      simp [transitionEvent, transitions, h1, h2, h3, h4]

/-- C6: `monitorElement` with an unresolvable anchor installs nothing and
returns no handle; with a resolvable anchor it fires the abort callback
exactly once, at the first 200ms tick at which the element has no parent
node or is invisible, and never again afterwards (its interval is cleared
on the firing tick), whatever the later observations — in particular even
if the element is later reattached and then detached again. -/
theorem monitorElement_single_fire :
    monitorElement false = none ∧
    monitorElement true = some { active := true } ∧
    ∀ obs : List (Bool × Bool),
      monitorRunFrom { active := true } 0 obs =
        (firstIndexSatisfying (fun o => !o.1 || !o.2) obs).toList := by
  refine ⟨rfl, rfl, fun obs => ?_⟩
  rw [monitorRunFrom_active 0 obs]
  cases hfi : firstIndexSatisfying (fun o => !o.1 || !o.2) obs <;> simp [hfi]

/-- C7: `waitForText` fires immediately at install when the target is
unresolvable or its value is already non-empty; the effective debounce is
`delay || 1000`, i.e. 1000ms when the configured interval is absent
(`parseInt` gave `NaN`) or zero; every input event reaching the attached
listener with a non-empty field value replaces any pending timer by a fresh
one expiring a full debounce interval later; and with debounce 500ms and
keystrokes at t = 0, 100, 200 on an initially empty field the callback
fires exactly once, at t = 700. -/
theorem waitForText_debounce :
    waitForText none = (none, true) ∧
    (∀ v : String, v ≠ "" → waitForText (some v) = (none, true)) ∧
    effDelay none = 1000 ∧
    effDelay (some 0) = 1000 ∧
    (∀ d : Nat, d ≠ 0 → effDelay (some d) = d) ∧
    (∀ (delay : Option Nat) (t : Nat) (v : String) (s : TextState),
      s.elemListener = true → v ≠ "" →
      textInput delay t v s = { s with timer := some (t + effDelay delay) }) ∧
    textRun (some 500) { elemListener := true, docListener := false, timer := none }
      [(0, .input "a"), (100, .input "ab"), (200, .input "abc")] = [700] := by
  refine ⟨rfl, ?_, rfl, rfl, ?_, ?_, rfl⟩
  · intro v hv
    simp [waitForText, hv]
  · intro d hd
    simp [effDelay, hd]
  · intro delay t v s hs hv
    simp [textInput, hs, hv]

/-- Witness for C7 at concrete inputs: a non-empty field fires immediately,
`effDelay (some 250) = 250`, and an input event at t = 40 on a state with
the listener attached replaces the pending timer by one expiring at 290. -/
theorem waitForText_debounce_witness :
    waitForText (some "hello") = (none, true) ∧
    effDelay (some 250) = 250 ∧
    textInput (some 250) 40 "x" { elemListener := true, docListener := false, timer := some 7 } =
      { elemListener := true, docListener := false, timer := some 290 } := by
  have h := waitForText_debounce
  refine ⟨h.2.1 "hello" (by decide), h.2.2.2.2.1 250 (by decide), ?_⟩
  have := h.2.2.2.2.2.1 (some 250) 40 "x"
    { elemListener := true, docListener := false, timer := some 7 } rfl (by decide)
  simpa using this

/-- C8: idempotent cancellation.  For each of the three watcher handles
(`waitForText`'s `cleanup`, `monitorElement`'s and `waitForElement`'s
interval-clearing closures), invoking it `n ≥ 1` times from any state —
including a state reached after natural completion — leaves the same state
as invoking it once; processing a further cancel after a cancel fires no
callback; and a cancelled monitor or cancelled visibility interval never
produces a tick fire. -/
theorem watcher_cancel_idempotent :
    ∀ n : Nat, 1 ≤ n →
      (∀ s : TextState, textCleanup^[n] s = textCleanup s) ∧
      (∀ s : MonitorState, monitorCancel^[n] s = monitorCancel s) ∧
      (∀ s : ElemState, elemCancel^[n] s = elemCancel s) ∧
      (∀ (delay : Option Nat) (t : Nat) (s : TextState),
        textStep delay (textCleanup s) (t, .cancel) = (textCleanup s, [])) ∧
      (∀ (i : Nat) (obs : List (Bool × Bool)) (s : MonitorState),
        monitorRunFrom (monitorCancel s) i obs = []) ∧
      (∀ (delay t : Nat) (env : List (Bool × Bool)) (s : ElemState),
        elemRunTicks delay t (elemCancel s) env = []) := by
  intro n hn
  refine ⟨iterate_fixed_of_idem textCleanup (fun s => rfl) n hn,
    iterate_fixed_of_idem monitorCancel (fun s => rfl) n hn,
    iterate_fixed_of_idem elemCancel (fun s => rfl) n hn, ?_, ?_, ?_⟩
  · intro delay t s
    rfl
  · intro i obs s
    exact monitorRunFrom_inactive i obs
  · intro delay t env s
    exact elemRunTicks_inactive delay t env (elemCancel s) rfl

/-- Witness for C8 at concrete inputs: two cancels equal one on concrete
states of each watcher, a second cancel fires nothing, and cancelled
intervals stay silent over a concrete observation list. -/
theorem watcher_cancel_idempotent_witness :
    textCleanup^[2] { elemListener := true, docListener := false, timer := some 5 } =
      textCleanup { elemListener := true, docListener := false, timer := some 5 } ∧
    monitorCancel^[2] { active := true } = monitorCancel { active := true } ∧
    elemCancel^[2] { intervalActive := true, transitionListeners := 1, pendingTimeouts := [9] } =
      elemCancel { intervalActive := true, transitionListeners := 1, pendingTimeouts := [9] } ∧
    textStep none (textCleanup { elemListener := true, docListener := false, timer := some 5 })
      (3, .cancel) =
      (textCleanup { elemListener := true, docListener := false, timer := some 5 }, []) ∧
    monitorRunFrom (monitorCancel { active := true }) 0 [(false, false)] = [] ∧
    elemRunTicks 0 200
      (elemCancel { intervalActive := true, transitionListeners := 0, pendingTimeouts := [] })
      [(true, false)] = [] := by
  have h := watcher_cancel_idempotent 2 (by decide)
  exact ⟨h.1 _, h.2.1 _, h.2.2.1 _, h.2.2.2.1 none 3 _, h.2.2.2.2.1 0 [(false, false)] _,
    h.2.2.2.2.2 0 200 [(true, false)] _⟩

/-- C3 fails on the code: `waitForText` adds `currentListener` to the
ELEMENT's listener list, but `cleanup` removes it from the DOCUMENT's list,
so invoking the cancellation handle clears the pending timer yet leaves the
input listener attached.  Concretely: install on an empty field, invoke the
handle at t = 0, then dispatch an input event with value `x` at t = 10 —
a debounce timer starts and the callback fires at t = 510. -/
theorem waitForText_cancel_leaves_element_listener :
    waitForText (some "") =
      (some { elemListener := true, docListener := false, timer := none }, false) ∧
    (textCleanup { elemListener := true, docListener := false, timer := none }).elemListener
      = true ∧
    textRun (some 500) { elemListener := true, docListener := false, timer := none }
      [(0, .cancel), (10, .input "x")] = [510] :=
  ⟨rfl, rfl, rfl⟩

/-- C1 fails on the code: after the lifecycle controller's `clearAll` has
invoked every handle of the old generation, torn-down watchers can still
fire.  First, invoking a text watcher's handle through `clearAll` leaves
the state unchanged (listener still on the element), and a later input
event schedules the debounce timer, firing the callback at t = 1005.
Second, a `waitForElement` installed while its target is already visible
and animating returns NO handle (`false`) while leaving a pending
transition-completion listener attached, so `clearAll` has nothing to
invoke and the transition end at t = 300 fires the callback. -/
theorem clearAll_leaves_live_watchers :
    clearAll [some textCleanup]
        { elemListener := true, docListener := false, timer := none } =
      { elemListener := true, docListener := false, timer := none } ∧
    textRun (some 1000)
      (clearAll [some textCleanup]
        { elemListener := true, docListener := false, timer := none })
      [(5, .input "x")] = [1005] ∧
    waitForElement 0 0 true true =
      ({ intervalActive := false, transitionListeners := 1, pendingTimeouts := [] },
        [], false) ∧
    elemTransitionEnd 0 300
        { intervalActive := false, transitionListeners := 1, pendingTimeouts := [] } =
      ({ intervalActive := false, transitionListeners := 0, pendingTimeouts := [] },
        [300]) :=
  ⟨rfl, rfl, rfl, rfl⟩

/-- C2 fails on the code: the interval callback of `waitForElement` never
calls `cleanup`, so polling does NOT stop at the first
resolvable-and-visible tick and the advance callback fires again on every
later tick while the target stays visible.  Concretely: installed with zero
delay on a not-yet-visible target (a handle is returned and the interval
started), with the target invisible at the 200ms tick and visible,
non-animating at the 400ms and 600ms ticks, the callback fires twice, at
t = 400 and t = 600, and the interval is still active after a success
tick. -/
theorem waitForElement_keeps_polling_after_success :
    waitForElement 0 0 false false =
      ({ intervalActive := true, transitionListeners := 0, pendingTimeouts := [] },
        [], true) ∧
    elemRunTicks 0 200
      { intervalActive := true, transitionListeners := 0, pendingTimeouts := [] }
      [(false, false), (true, false), (true, false)] = [400, 600] ∧
    (elemTick 0 400 true false
      { intervalActive := true, transitionListeners := 0,
        pendingTimeouts := [] }).1.intervalActive = true :=
  ⟨rfl, rfl, rfl⟩

end SolidTest
